import Mathlib

/-!
Shallow embedding of the TalentScout hiring-assistant chatbot
(`src/chatbot.py`, `src/prompts/system_prompts.py`, `src/app.py`).

Python strings are modelled as Lean `String`s; character-level operations
(`str.strip`, `str.lower`, substring containment via `in`, `str.replace`,
`str.split`) are re-implemented over `List Char`, with ASCII semantics for
character classes (`isdigit`, `[a-zA-Z]`, whitespace), which is the alphabet
the program's own rules and data use.  Python dicts with string keys are
modelled as insertion-ordered association lists.  The two external
text-generation calls are modelled as an explicit parameter
`llm : Option String` (`none` = the call raised / failed, `some c` = the call
returned content `c`); the code catches a failure at the call site, which the
embedding mirrors by pattern matching.
-/

namespace Talent

/-! ### Python string primitives -/

/-- Whitespace characters removed by Python's `str.strip()` (ASCII range). -/
def pyIsSpace (c : Char) : Bool :=
  c == ' ' || c == '\t' || c == '\n' || c == '\r' || c == '\x0b' || c == '\x0c'

/-- `str.strip()` on a character list: drop whitespace from both ends. -/
def stripChars (l : List Char) : List Char :=
  ((l.dropWhile pyIsSpace).reverse.dropWhile pyIsSpace).reverse

/-- `str.strip()`. -/
def pyStrip (s : String) : String := ⟨stripChars s.data⟩

/-- `str.lower()` (ASCII letters). -/
def pyLower (s : String) : String := ⟨s.data.map Char.toLower⟩

/-- Does `l` start with the pattern `pat`? -/
def startsWithChars : List Char → List Char → Bool
  | [], _ => true
  | _ :: _, [] => false
  | p :: ps, c :: cs => p == c && startsWithChars ps cs

/-- Python's substring containment `pat in l` (contiguous substring). -/
def containsSubChars (pat : List Char) : List Char → Bool
  | [] => pat.isEmpty
  | c :: cs => startsWithChars pat (c :: cs) || containsSubChars pat cs

/-- `pat in hay` for strings. -/
def pyContains (hay pat : String) : Bool := containsSubChars pat.data hay.data

/-- Fuel-driven core of Python's `str.replace`: replace non-overlapping
occurrences of `pat` left to right.  The fuel is the length of the scanned
list, which suffices for a non-empty pattern (the program only ever replaces
the non-empty word `"today"`). -/
def replaceFuel (pat rep : List Char) : Nat → List Char → List Char
  | _, [] => []
  | 0, l => l
  | n + 1, c :: cs =>
    if !pat.isEmpty && startsWithChars pat (c :: cs) then
      rep ++ replaceFuel pat rep n ((c :: cs).drop pat.length)
    else
      c :: replaceFuel pat rep n cs

/-- `s.replace(pat, rep)` for a non-empty `pat`. -/
def pyReplace (s pat rep : String) : String :=
  ⟨replaceFuel pat.data rep.data s.data.length s.data⟩

/-- `content.split('\n')`: split on every newline, keeping empty pieces. -/
def splitOnNl : List Char → List (List Char)
  | [] => [[]]
  | c :: cs =>
    if c == '\n' then [] :: splitOnNl cs
    else
      match splitOnNl cs with
      | [] => [[c]]
      | l :: ls => (c :: l) :: ls

/-! ### Association lists (Python dicts with string keys) -/

/-- `d[k] = v`: update in place if the key exists, else append. -/
def assocSet {α : Type} : List (String × α) → String → α → List (String × α)
  | [], k, v => [(k, v)]
  | (k0, v0) :: rest, k, v =>
    if k0 = k then (k0, v) :: rest else (k0, v0) :: assocSet rest k v

/-- `d.get(k, dflt)`. -/
def assocGetD {α : Type} : List (String × α) → String → α → α
  | [], _, d => d
  | (k0, v0) :: rest, k, d => if k0 = k then v0 else assocGetD rest k d

/-! ### Prompt constants (`src/prompts/system_prompts.py`) -/

/-- `VALIDATION_PROMPTS['email']`. -/
def validationPromptEmail : String :=
  "That doesn\x27t look quite like a valid email. Could you please try again? (e.g., jane.doe@example.com)"

/-- `VALIDATION_PROMPTS['phone']`. -/
def validationPromptPhone : String :=
  "Hmm, that doesn\x27t seem to be a phone number. Could you please provide a number with digits?"

/-- `VALIDATION_PROMPTS['experience']`. -/
def validationPromptExperience : String :=
  "Could you please provide your experience as a number (like 2, 5, or 10)? If you\x27re a recent grad, \x270\x27 or \x27fresher\x27 works perfectly!"

/-- `VALIDATION_PROMPTS['techstack']`. -/
def validationPromptTechstack : String :=
  "Could you please list out your technical skills? For example: Python, React, Docker, SQL"

/-- `FAREWELL_PROMPT` (the file's literal text, including its mojibake
decorations; the `\x7bname\x7d` placeholder is literal text, never formatted). -/
def FAREWELL_PROMPT : String :=
  "Thank you so much for your time today, \x7bname\x7d! ðŸŽ‰\n\nWe\x27ve successfully wrapped up the initial screening. Hereâ€™s what will happen next:\n\n- Our recruitment team will carefully review your profile and answers.\n- We\x27ll get back to you within 3-5 business days.\n\nBest of luck with your application! We really appreciate you chatting with us.\n\nHave a wonderful day! ðŸ‘‹"

/-! ### ValidationAgent (`chatbot.py` lines 57-96) -/

/-- Character class `[a-zA-Z0-9._%+-]` of the email pattern. -/
def emailClass1 (c : Char) : Bool :=
  c.isAlphanum || c == '.' || c == '_' || c == '%' || c == '+' || c == '-'

/-- Character class `[a-zA-Z0-9.-]` of the email pattern. -/
def emailClass2 (c : Char) : Bool :=
  c.isAlphanum || c == '.' || c == '-'

/-- All ways of cutting a list in two: `(a, b) ∈ splits l ↔ l = a ++ b`. -/
def splits : List Char → List (List Char × List Char)
  | [] => [([], [])]
  | c :: cs => ([], c :: cs) :: (splits cs).map (fun p => (c :: p.1, p.2))

/-- The part of the email pattern after the `@`:
`[a-zA-Z0-9.-]+\.[a-zA-Z]{2,}` anchored to the end. -/
def emailTailMatch (t : List Char) : Bool :=
  (splits t).any fun q =>
    !q.1.isEmpty && q.1.all emailClass2 &&
    (match q.2 with
     | [] => false
     | c :: c3 => c == '.' && decide (2 ≤ c3.length) && c3.all Char.isAlpha)

/-- `re.match(r'^[a-zA-Z0-9._%+-]+@[a-zA-Z0-9.-]+\.[a-zA-Z]{2,}$', ·)` as a
boolean: the string decomposes into the three anchored pieces. -/
def emailMatch (l : List Char) : Bool :=
  (splits l).any fun p =>
    !p.1.isEmpty && p.1.all emailClass1 &&
    (match p.2 with
     | [] => false
     | c :: t => c == '@' && emailTailMatch t)

/-- `ValidationAgent.validate(stage, value)`. -/
def validate (stage : String) (value0 : String) : Bool × Option String :=
  let value := pyStrip value0
  if stage = "email" then
    if emailMatch value.data then (true, none)
    else (false, some validationPromptEmail)
  else if stage = "phone" then
    if value.data.any Char.isDigit then (true, none)
    else (false, some validationPromptPhone)
  else if stage = "experience" then
    if ["fresher", "fresh graduate", "0"].contains (pyLower value)
        || value.data.any Char.isDigit then (true, none)
    else (false, some validationPromptExperience)
  else if stage = "name" then
    if 2 ≤ value.length then (true, none)
    else (false, some "Please provide your full name (at least 2 characters).")
  else if stage = "techstack" then
    if 3 ≤ value.length then (true, none)
    else (false, some validationPromptTechstack)
  else if 0 < value.length then (true, none)
  else (false, some ("Please provide your " ++ stage ++ "."))


/-! ### QuestionGenerationAgent knowledge base (`chatbot.py` lines 108-273) -/

/-- `_load_question_knowledge`: keyword -> ordered question list, in the
source dict's insertion order. -/
def knowledge_base : List (String × List String) := [
  ("python", [
    "Explain the difference between a list and a tuple in Python. When would you use each?",
    "How do you handle exceptions in Python? Provide an example of a try-except block.",
    "What are Python decorators and how have you used them?",
    "Explain list comprehensions and give an example of when you\x27d use them."
  ]),
  ("javascript", [
    "What\x27s the difference between \x27let\x27, \x27var\x27, and \x27const\x27 in JavaScript?",
    "Explain closures in JavaScript with a practical example.",
    "What is the event loop and how does it work?",
    "How does \x27this\x27 keyword work in different contexts?"
  ]),
  ("js", [
    "What are arrow functions and how do they differ from regular functions?",
    "Explain promises and async/await in JavaScript.",
    "What is event bubbling and capturing?",
    "How do you handle asynchronous operations in JavaScript?"
  ]),
  ("react", [
    "What are React hooks? Which ones have you used most frequently?",
    "Explain the virtual DOM and how React uses it for optimization.",
    "What\x27s the difference between state and props?",
    "How do you handle side effects in React applications?"
  ]),
  ("django", [
    "Explain Django\x27s MVT (Model-View-Template) architecture.",
    "How does Django\x27s ORM work? What are its advantages?",
    "Describe Django\x27s middleware and when you\x27d create custom middleware.",
    "How do you handle authentication and authorization in Django?"
  ]),
  ("flask", [
    "What\x27s the difference between Django and Flask?",
    "Explain Flask\x27s application context and request context.",
    "How do you structure a large Flask application?",
    "How do you handle database migrations in Flask?"
  ]),
  ("sql", [
    "What\x27s the difference between INNER JOIN and LEFT JOIN?",
    "Explain database indexing and when you would use it.",
    "How do you optimize a slow database query?",
    "What are transactions and why are they important?"
  ]),
  ("mysql", [
    "Explain the difference between MyISAM and InnoDB storage engines.",
    "How do you optimize MySQL queries for better performance?",
    "What is query caching in MySQL?",
    "How do you handle database replication in MySQL?"
  ]),
  ("postgresql", [
    "What are the advantages of PostgreSQL over MySQL?",
    "Explain JSONB data type and when you\x27d use it.",
    "How does PostgreSQL handle concurrent transactions?",
    "What are PostgreSQL extensions and which ones have you used?"
  ]),
  ("mongodb", [
    "Explain the difference between SQL and NoSQL databases.",
    "How does indexing work in MongoDB?",
    "What are the advantages and disadvantages of MongoDB?",
    "How do you design schemas in MongoDB?"
  ]),
  ("node", [
    "Explain the event-driven architecture of Node.js.",
    "What is the difference between synchronous and asynchronous operations in Node?",
    "How do you handle errors in Node.js applications?",
    "Explain the concept of middleware in Express.js."
  ]),
  ("express", [
    "How does Express.js middleware work?",
    "Explain routing in Express.js.",
    "How do you handle errors in Express applications?",
    "What are the best practices for structuring an Express.js application?"
  ]),
  ("docker", [
    "What is Docker and why is it useful in development?",
    "Explain the difference between a Docker image and a container.",
    "How do you optimize Docker images for production?",
    "What is Docker Compose and when would you use it?"
  ]),
  ("kubernetes", [
    "What is Kubernetes and what problems does it solve?",
    "Explain pods, services, and deployments in Kubernetes.",
    "How does Kubernetes handle scaling?",
    "What is the difference between Kubernetes and Docker Swarm?"
  ]),
  ("aws", [
    "Explain the difference between EC2, ECS, and Lambda.",
    "What is S3 and what are its use cases?",
    "How do you ensure security in AWS environments?",
    "Describe a CI/CD pipeline using AWS services."
  ]),
  ("git", [
    "Explain the difference between merge and rebase in Git.",
    "How do you resolve merge conflicts?",
    "What is a pull request and what\x27s your review process?",
    "Explain Git branching strategies you\x27ve used."
  ]),
  ("java", [
    "Explain the concept of inheritance and polymorphism in Java.",
    "What is the difference between abstract classes and interfaces?",
    "How does garbage collection work in Java?",
    "Explain the Java Collections Framework."
  ]),
  ("spring", [
    "What is dependency injection in Spring?",
    "Explain the difference between @Component, @Service, and @Repository.",
    "How does Spring Boot simplify Spring development?",
    "What is Spring MVC and how does it work?"
  ]),
  ("typescript", [
    "What are the advantages of TypeScript over JavaScript?",
    "Explain interfaces and types in TypeScript.",
    "How does TypeScript handle type inference?",
    "What are generics in TypeScript?"
  ]),
  ("angular", [
    "What\x27s the difference between Angular and React?",
    "Explain components, services, and modules in Angular.",
    "How does dependency injection work in Angular?",
    "What are Angular directives?"
  ]),
  ("vue", [
    "What\x27s the difference between Vue and React?",
    "Explain the Vue component lifecycle.",
    "How does Vue\x27s reactivity system work?",
    "What is Vuex and when would you use it?"
  ]),
  ("redis", [
    "What is Redis and what are its common use cases?",
    "Explain Redis data structures.",
    "How do you use Redis for caching?",
    "What is Redis pub/sub?"
  ]),
  ("graphql", [
    "What\x27s the difference between REST and GraphQL?",
    "Explain queries, mutations, and subscriptions in GraphQL.",
    "What are the advantages of GraphQL?",
    "How do you handle errors in GraphQL?"
  ]),
  ("api", [
    "What are RESTful API best practices?",
    "How do you version APIs?",
    "Explain different HTTP methods and when to use them.",
    "How do you handle authentication in APIs?"
  ]),
  ("rest", [
    "What are the principles of REST architecture?",
    "Explain HTTP status codes and when to use them.",
    "How do you design RESTful endpoints?",
    "What is HATEOAS in REST?"
  ]),
  ("testing", [
    "What\x27s the difference between unit testing and integration testing?",
    "How do you write testable code?",
    "Explain test-driven development (TDD).",
    "What testing frameworks have you used?"
  ]),
  ("ci/cd", [
    "What is CI/CD and why is it important?",
    "Explain your experience with CI/CD pipelines.",
    "What tools have you used for continuous integration?",
    "How do you handle deployments in your workflow?"
  ])
]

/-- Fixed generic top-up questions (`generate_questions`, lines 318-323). -/
def generic_questions : List String := [
  "Describe a challenging technical problem you\x27ve solved recently and your approach.",
  "How do you ensure code quality and maintainability in your projects?",
  "What\x27s your process for learning new technologies or frameworks?",
  "How do you approach debugging complex issues in production environments?"
]

/-- Knowledge-base lookup `self.knowledge_base[tech]` (every key passed in is
a key of the dict, so the default is never reached). -/
def kbLookup (tech : String) : List String :=
  (knowledge_base.lookup tech).getD []

/-- The three fixed fallback questions returned when the external generation
call raises (`_generate_custom_questions`, lines 349-355); the third one
interpolates the tech-stack text. -/
def fallbackQuestions (tech_stack : String) : List String := [
  "Describe a challenging technical problem you\x27ve solved recently.",
  "How do you approach debugging complex issues?",
  "What best practices do you follow when working with " ++ tech_stack ++ "?"
]

/-! ### Parsing of generated questions (`_parse_questions`, lines 357-370) -/

/-- One of the enumeration marker characters `[\.\):]`. -/
def enumMarkChar (c : Char) : Bool := c == '.' || c == ')' || c == ':'

/-- Character class `[\.\):\s]`. -/
def enumMarkOrSpace (c : Char) : Bool := enumMarkChar c || pyIsSpace c

/-- Character class `[\:\s]`. -/
def colonOrSpace (c : Char) : Bool := c == ':' || pyIsSpace c

/-- `re.match(r'^\d+[\.\):]', line)`: one or more digits followed by one of
`.`, `)`, `:`. -/
def lineIsEnum (l : List Char) : Bool :=
  !(l.takeWhile Char.isDigit).isEmpty &&
  (match l.dropWhile Char.isDigit with
   | c :: _ => enumMarkChar c
   | [] => false)

/-- `re.sub(r'^\d+[\.\):\s]+', '', line)`: strip a leading run of digits and
a following run of markers/whitespace, when both are present. -/
def stripEnumMarker (l : List Char) : List Char :=
  let r1 := l.dropWhile Char.isDigit
  if (l.takeWhile Char.isDigit).isEmpty || (r1.takeWhile enumMarkOrSpace).isEmpty then l
  else r1.dropWhile enumMarkOrSpace

/-- `re.sub(r'^Question\s+\d+[\:\s]+', '', q, flags=IGNORECASE)`. -/
def stripQuestionMarker (l : List Char) : List Char :=
  if startsWithChars "question".data (l.map Char.toLower) then
    let r1 := l.drop 8
    let r2 := r1.dropWhile pyIsSpace
    let r3 := r2.dropWhile Char.isDigit
    if (r1.takeWhile pyIsSpace).isEmpty || (r2.takeWhile Char.isDigit).isEmpty
        || (r3.takeWhile colonOrSpace).isEmpty then l
    else r3.dropWhile colonOrSpace
  else l

/-- The per-line step of `_parse_questions`: strip, keep only enumerated lines
or lines starting with "question", strip the markers, keep results of length
greater than 15. -/
def parseLine (line0 : List Char) : Option String :=
  let line := stripChars line0
  if lineIsEnum line || startsWithChars "question".data (line.map Char.toLower) then
    let q := stripQuestionMarker (stripEnumMarker line)
    if !q.isEmpty && 15 < q.length then some ⟨stripChars q⟩ else none
  else none

/-- `_parse_questions(content)`. -/
def parse_questions (content : String) : List String :=
  (splitOnNl content.data).filterMap parseLine

/-- `_generate_custom_questions(tech_stack, num)`: the external call either
returns content (parsed for questions) or raises, in which case the fixed
fallback list is returned.  `num` only affects the prompt text, not the
result. -/
def generate_custom_questions (llm : Option String) (tech_stack : String) : List String :=
  match llm with
  | some content => parse_questions content
  | none => fallbackQuestions tech_stack

/-! ### Question retrieval (`generate_questions`, lines 276-326) -/

/-- Keywords of the knowledge base found (as substrings, Python `in`) in the
lowercased tech-stack text, in the dict's iteration order. -/
def matchedTechs (tech_stack : String) : List String :=
  (knowledge_base.map Prod.fst).filter
    (fun tech => containsSubChars tech.data (pyLower tech_stack).data)

/-- The top-up loop of `generate_questions` (lines 297-304): for each matched
tech in order, append its not-yet-taken questions up to the outstanding
remainder, stopping once the total reaches `num`. -/
def secondPass (qs : List String) (techs : List String) (per num : Nat) : List String :=
  match techs with
  | [] => qs
  | tech :: rest =>
    if num ≤ qs.length then qs
    else secondPass (qs ++ ((kbLookup tech).drop per).take (num - qs.length)) rest per num

/-- `generate_questions(tech_stack, num_questions)`. -/
def generate_questions (llm : Option String) (tech_stack : String) (num_questions : Nat) : List String :=
  let matched := matchedTechs tech_stack
  let questions :=
    if !matched.isEmpty then
      let questions_per_tech := max 1 (num_questions / matched.length)
      let firstPass := matched.flatMap (fun tech => (kbLookup tech).take questions_per_tech)
      if firstPass.length < num_questions then
        secondPass firstPass matched questions_per_tech num_questions
      else firstPass
    else []
  if num_questions ≤ questions.length then questions.take num_questions
  else
    let questions :=
      if 0 < num_questions - questions.length then
        questions ++ generate_custom_questions llm tech_stack
      else questions
    let questions :=
      if questions.length < num_questions then
        questions ++ generic_questions.take (num_questions - questions.length)
      else questions
    questions.take num_questions

/-! ### HiringAssistant session state (`chatbot.py` lines 373-441) -/

/-- The mutable state of one `HiringAssistant` instance.  `candidate_data` is
a Python dict holding string-valued entries (the collected fields) alongside
the list/int-valued entries `questions`, `answers`, `current_question` and
`final_questions`; the embedding keeps the string-valued entries in the
insertion-ordered association list `fields` and the other four as `Option`
fields (`none` = key absent). -/
structure ChatState where
  conversation_history : List (String × String)
  fields : List (String × String)
  questions : Option (List String)
  answers : Option (List String)
  current_question : Option Nat
  final_questions : Option (List String)
  current_stage : String
  validation_attempts : List (String × Nat)
  deriving Repr, DecidableEq

/-- `self.stages`. -/
def stages : List String :=
  ["greeting", "name", "email", "phone", "experience", "position", "location",
   "techstack", "questions", "complete"]

/-- `self.stage_questions`. -/
def stage_questions : List (String × String) := [
  ("name",
   "Great to meet you! What\x27s your full name?"),
  ("email",
   "Thanks! What\x27s your email address?"),
  ("phone",
   "And your phone number? (You can include country code)"),
  ("experience",
   "How many years of professional experience do you have? (If you\x27re a fresher, just say 0 or \x27fresher\x27)"),
  ("position",
   "What position or role are you interested in?"),
  ("location",
   "Where are you currently located? (City, Country)"),
  ("techstack",
   "Now let\x27s talk about your technical skills! \n\nWhat\x27s your tech stack? Please list:\n\u00E2\u20AC\u00A2 Programming languages (e.g., Python, JavaScript, Java)\n\u00E2\u20AC\u00A2 Frameworks (e.g., React, Django, Spring)\n\u00E2\u20AC\u00A2 Databases (e.g., MySQL, MongoDB, PostgreSQL)\n\u00E2\u20AC\u00A2 Tools (e.g., Docker, Git, AWS)\n\nYou can list them separated by commas.")
]

/-- The freshly constructed assistant (`__init__`). -/
def initState : ChatState where
  conversation_history := []
  fields := []
  questions := none
  answers := none
  current_question := none
  final_questions := none
  current_stage := "greeting"
  validation_attempts := []

/-- `start_conversation`'s greeting text. -/
def greeting_text : String :=
  "Hello! \u00F0\u0178\u2018\u2039 I\x27m TalentScout\x27s AI Hiring Assistant.\n\nI\x27m here to help us get to know you better and understand your technical expertise. This initial screening will take about 10-15 minutes.\n\nHere\x27s what we\x27ll cover:\n\u00E2\u20AC\u00A2 Your background and experience  \n\u00E2\u20AC\u00A2 Your technical skills  \n\u00E2\u20AC\u00A2 A few technical questions based on your expertise\n\nEverything you share is confidential and used only for recruitment purposes.\n\nReady to begin? Please tell me your full name. \u00F0\u0178\u02DC\u0160"

/-- `start_conversation()`: append the greeting to the history and return it. -/
def start_conversation (st : ChatState) : ChatState × String :=
  ({ st with conversation_history :=
      st.conversation_history ++ [("assistant", greeting_text)] },
   greeting_text)

/-- `_move_to_next_stage()`: step to the following entry of `stages` and
return its prompt, or "Thank you!" when it has none. -/
def move_to_next_stage (st : ChatState) : ChatState × String :=
  let next := stages.getD (stages.indexOf st.current_stage + 1) ""
  ({ st with current_stage := next },
   match stage_questions.lookup next with
   | some q => q
   | none => "Thank you!")

/-- `_handle_greeting(message)`: store the trimmed message as the name, zero
the name retry counter, jump to the email stage and return its prompt. -/
def handle_greeting (st : ChatState) (message : String) : ChatState × String :=
  ({ st with
      fields := assocSet st.fields "name" (pyStrip message)
      validation_attempts := assocSet st.validation_attempts "name_attempts" 0
      current_stage := "email" },
   (stage_questions.lookup "email").getD "")

/-- `_handle_info_collection(message)` (lines 479-506). -/
def handle_info_collection (st : ChatState) (message : String) : ChatState × String :=
  let stage := st.current_stage
  let v := validate stage message
  if v.1 = false then
    let attempt_key := stage ++ "_attempts"
    let attempts := assocGetD st.validation_attempts attempt_key 0
    if 2 ≤ attempts then
      move_to_next_stage
        { st with
            validation_attempts := assocSet st.validation_attempts attempt_key 0
            fields := assocSet st.fields stage (pyStrip message) }
    else
      ({ st with validation_attempts :=
          assocSet st.validation_attempts attempt_key (attempts + 1) },
       v.2.getD "")
  else
    move_to_next_stage
      { st with
          validation_attempts := assocSet st.validation_attempts (stage ++ "_attempts") 0
          fields := assocSet st.fields stage (pyStrip message) }

/-- `_handle_techstack(message)` (lines 519-543). -/
def handle_techstack (llm : Option String) (st : ChatState) (message : String) :
    ChatState × String :=
  let v := validate "techstack" message
  if v.1 = false then (st, v.2.getD "")
  else
    let qs := generate_questions llm message 4
    ({ st with
        fields := assocSet st.fields "techstack" (pyStrip message)
        questions := some qs
        answers := some []
        current_question := some 0
        current_stage := "questions" },
     "Excellent! Based on your tech stack, I\x27d like to ask you some technical questions to better understand your expertise. \u00E2\u0153\u00A8\n\nWe\x27ll go through "
       ++ toString qs.length
       ++ " questions. Take your time with each answer - there\x27s no rush!\n\n**Question 1:** "
       ++ qs.getD 0 "")

/-- `_generate_completion_message()` (lines 567-589). -/
def generate_completion_message (st : ChatState) : String :=
  "Thank you so much, " ++ assocGetD st.fields "name" "there"
    ++ "! \u00F0\u0178\u017D\u2030\n\nWe\x27ve completed the initial screening. Here\x27s what we covered:\n\n\u00E2\u0153\u2026 Personal Information\n\u00E2\u0153\u2026 Professional Experience: "
    ++ assocGetD st.fields "experience" "N/A"
    ++ "\n\u00E2\u0153\u2026 Desired Position: " ++ assocGetD st.fields "position" "N/A"
    ++ "\n\u00E2\u0153\u2026 Tech Stack: " ++ assocGetD st.fields "techstack" "N/A"
    ++ "\n\u00E2\u0153\u2026 Technical Questions: " ++ toString (st.answers.getD []).length
    ++ " answered\n\n**Next Steps:**\n\u00E2\u20AC\u00A2 Our recruitment team will review your profile and responses\n\u00E2\u20AC\u00A2 We\x27ll carefully evaluate your technical answers\n\u00E2\u20AC\u00A2 You\x27ll hear back from us within 3-5 business days\n\n**Do you have any questions for us?**\nIf you have any questions about the role, company, or process, please feel free to ask! We\x27ll get back to you via email within the next few days.\n\nOtherwise, you can type \x27bye\x27 to end the conversation."

/-- `_handle_technical_questions(message)` (lines 545-565). -/
def handle_technical_questions (st : ChatState) (message : String) :
    ChatState × String :=
  let st := { st with answers := some ((st.answers.getD []) ++ [pyStrip message]) }
  let current_q := st.current_question.getD 0
  let total_q := (st.questions.getD []).length
  if current_q < total_q - 1 then
    ({ st with current_question := some (current_q + 1) },
     "Great answer! Thank you for sharing that. \u00F0\u0178\u2018\n\n**Question "
       ++ toString (current_q + 2) ++ ":** "
       ++ (st.questions.getD []).getD (current_q + 1) "")
  else
    let st := { st with current_stage := "complete" }
    (st, generate_completion_message st)

/-- `_handle_completion(message)` (lines 591-604). -/
def handle_completion (st : ChatState) (message : String) : ChatState × String :=
  ({ st with final_questions := some ((st.final_questions.getD []) ++ [pyStrip message]) },
   "Thank you for your question! I\x27ve recorded it for our team.\n\nWe\x27ll review your question along with your application and get back to you via email within the next few days with a detailed response.\n\nIs there anything else you\x27d like to know? Otherwise, feel free to type \x27bye\x27 to end the conversation. \n\nHave a great day! \u00F0\u0178\u2018\u2039")

/-- The stage routing of `process_message` (lines 449-461). -/
def routeMessage (llm : Option String) (st : ChatState) (m : String) :
    ChatState × String :=
  if st.current_stage = "greeting" then handle_greeting st m
  else if ["name", "email", "phone", "experience", "position", "location"].contains
      st.current_stage then handle_info_collection st m
  else if st.current_stage = "techstack" then handle_techstack llm st m
  else if st.current_stage = "questions" then handle_technical_questions st m
  else if st.current_stage = "complete" then handle_completion st m
  else (st, "Let\x27s continue with the interview.")

/-- `process_message(user_message)`: log the utterance, route it by stage,
log and return the reply. -/
def process_message (llm : Option String) (st : ChatState) (m : String) :
    ChatState × String :=
  let st1 := { st with conversation_history := st.conversation_history ++ [("user", m)] }
  let res := routeMessage llm st1 m
  ({ res.1 with conversation_history := res.1.conversation_history ++ [("assistant", res.2)] },
   res.2)

/-- A sequence of turns: each carries the external generator's outcome for
that turn and the user's message. -/
def runTurns (st : ChatState) : List (Option String × String) → ChatState
  | [] => st
  | (llm, m) :: rest => runTurns (process_message llm st m).1 rest

/-- `end_conversation()`: substitute the candidate name for the word "today"
in the farewell template when a name was stored. -/
def end_conversation (st : ChatState) : String :=
  let name := assocGetD st.fields "name" ""
  if name = "" then FAREWELL_PROMPT
  else pyReplace FAREWELL_PROMPT "today" name

/-! ### The Streamlit caller (`app.py`, `main`, lines 229-278) -/

/-- `exit_keywords` of `app.py`. -/
def exit_keywords : List String := ["bye", "exit", "quit", "goodbye", "end", "stop"]

/-- The app's exit test: any keyword contained (as a substring) in the
lowercased input. -/
def isExitMessage (input : String) : Bool :=
  exit_keywords.any (fun k => containsSubChars k.data (pyLower input).data)

/-- Python truthiness of `chatbot.candidate_data` (the dict is empty iff all
its possible entries are absent). -/
def candidateDataIsEmpty (st : ChatState) : Bool :=
  st.fields.isEmpty && st.questions.isNone && st.answers.isNone
    && st.current_question.isNone && st.final_questions.isNone

/-- The snapshot of `candidate_data` handed to `DataHandler.save_candidate`
(persistence itself is outside the core; the record is opaque to it). -/
structure CandidateSnapshot where
  fields : List (String × String)
  questions : Option (List String)
  answers : Option (List String)
  current_question : Option Nat
  final_questions : Option (List String)
  deriving Repr, DecidableEq

/-- Take the candidate-data snapshot of a chatbot state. -/
def snapshot (st : ChatState) : CandidateSnapshot where
  fields := st.fields
  questions := st.questions
  answers := st.answers
  current_question := st.current_question
  final_questions := st.final_questions

/-- The app session: chat transcript, the chatbot, the ended flag, and the
list of candidate records handed to the persistence collaborator. -/
structure AppState where
  messages : List (String × String)
  chatbot : ChatState
  conversation_ended : Bool
  saved : List CandidateSnapshot
  deriving Repr, DecidableEq

/-- The session right after `initialize_session_state` plus the
`start_conversation` block of `main`. -/
def initAppState : AppState where
  messages := [("assistant", greeting_text)]
  chatbot := (start_conversation initState).1
  conversation_ended := false
  saved := []

/-- One turn of `main`'s input handling (lines 232-272): record the user
message; on an exit keyword produce the farewell, persist the candidate data
when non-empty and freeze the session; otherwise run `process_message` and
persist when the interview just completed. -/
def appTurn (llm : Option String) (s : AppState) (user_input : String) : AppState :=
  let s := { s with messages := s.messages ++ [("user", user_input)] }
  if isExitMessage user_input then
    let s := { s with messages := s.messages ++ [("assistant", end_conversation s.chatbot)] }
    let s :=
      if candidateDataIsEmpty s.chatbot then s
      else { s with saved := s.saved ++ [snapshot s.chatbot] }
    { s with conversation_ended := true }
  else
    let r := process_message llm s.chatbot user_input
    let s := { s with chatbot := r.1, messages := s.messages ++ [("assistant", r.2)] }
    if r.1.current_stage = "complete" then { s with saved := s.saved ++ [snapshot r.1] }
    else s

/-! ### Lemmas about the primitives -/

theorem assocGetD_assocSet_self {α : Type} (m : List (String × α)) (k : String) (v d : α) :
    assocGetD (assocSet m k v) k d = v := by
  induction m with
  | nil => simp [assocSet, assocGetD]
  | cons p rest ih =>
    by_cases h : p.1 = k <;> simp [assocSet, assocGetD, h, ih]

theorem mem_assocSet {α : Type} {m : List (String × α)} {k : String} {v : α} {p : String × α}
    (hp : p ∈ assocSet m k v) : p ∈ m ∨ p.2 = v := by
  induction m with
  | nil => simp [assocSet] at hp; simp [hp]
  | cons q rest ih =>
    by_cases h : q.1 = k
    · simp [assocSet, h] at hp
      rcases hp with hp | hp
      · right; simp [hp]
      · left; simp [hp]
    · simp [assocSet, h] at hp
      rcases hp with hp | hp
      · left; simp [hp]
      · rcases ih hp with h2 | h2
        · left; simp [h2]
        · right; exact h2

theorem assocGetD_le_of_bounded {m : List (String × Nat)} {k : String}
    (h : ∀ p ∈ m, p.2 ≤ 2) : assocGetD m k 0 ≤ 2 := by
  induction m with
  | nil => simp [assocGetD]
  | cons q rest ih =>
    by_cases hq : q.1 = k
    · simpa [assocGetD, hq] using h q (by simp)
    · simp only [assocGetD, hq, if_false]
      exact ih (fun p hp => h p (by simp [hp]))

theorem mem_splits {l a b : List Char} : (a, b) ∈ splits l ↔ l = a ++ b := by
  induction l generalizing a with
  | nil =>
    simp only [splits, List.mem_singleton, Prod.mk.injEq]
    constructor
    · rintro ⟨rfl, rfl⟩; rfl
    · intro h
      cases a with
      | nil => simp at h; simp [h]
      | cons x xs => simp at h
  | cons c cs ih =>
    simp only [splits, List.mem_cons, List.mem_map, Prod.mk.injEq]
    constructor
    · rintro (⟨rfl, rfl⟩ | ⟨p, hp, rfl, rfl⟩)
      · rfl
      · simpa using (ih.mp hp)
    · intro h
      cases a with
      | nil => left; simpa using h.symm
      | cons a0 as =>
        right
        simp only [List.cons_append, List.cons.injEq] at h
        exact ⟨(as, b), ih.mpr h.2, by rw [h.1], rfl⟩

theorem take_append_take {α : Type} (l1 l2 : List α) (n : Nat) :
    (l1 ++ l2.take (n - l1.length)).take n = (l1 ++ l2).take n := by
  simp [List.take_append_eq_append_take, List.take_take]

/-! ### Claim theorems -/

/-- C2: for the tech-stack text "Python, React, Docker" and count 4, the
matched keywords are python, react, docker in the library's iteration order,
the per-tech share is `max 1 (4 / 3) = 1`, and the result has length exactly
4: the first questions of python, react and docker in that order, topped up
with the next question from the first matched keyword's list.  The external
generator is irrelevant (any outcome `llm`). -/
theorem c2_generate_questions_python_react_docker (llm : Option String) :
    matchedTechs "Python, React, Docker" = ["python", "react", "docker"] ∧
    max 1 (4 / (matchedTechs "Python, React, Docker").length) = 1 ∧
    generate_questions llm "Python, React, Docker" 4 =
      [(kbLookup "python").getD 0 "", (kbLookup "react").getD 0 "",
       (kbLookup "docker").getD 0 "", (kbLookup "python").getD 1 ""] ∧
    (generate_questions llm "Python, React, Docker" 4).length = 4 := by
  refine ⟨by decide, by decide, rfl, rfl⟩

/-- C3: when no library keyword occurs in the lowercased tech-stack text and
the external generation call fails (`llm = none`), `generate_questions`
returns the three fixed fallback questions followed by the generic questions,
truncated (or, for counts above 3, padded by the generics) to the requested
count; the failure never escapes: the function still returns a plain list. -/
theorem c3_generate_questions_fallback (ts : String) (n : Nat)
    (h : matchedTechs ts = []) :
    generate_questions none ts n = (fallbackQuestions ts ++ generic_questions).take n := by
  have hfb : generate_custom_questions none ts = fallbackQuestions ts := rfl
  have hlen3 : (fallbackQuestions ts).length = 3 := by simp [fallbackQuestions]
  unfold generate_questions
  rw [h]
  rcases Nat.eq_zero_or_pos n with rfl | hn
  · simp
  · simp only [List.isEmpty_nil, Bool.not_true, Bool.false_eq_true, if_false,
      List.length_nil, Nat.sub_zero, List.nil_append, hfb, hn, if_true,
      Nat.not_le.mpr hn, Nat.le_zero]
    by_cases h3 : (fallbackQuestions ts).length < n
    · rw [if_pos h3]
      exact take_append_take _ _ _
    · rw [if_neg h3]
      rw [List.take_append_of_le_length (by omega)]

/-- Witness for C3 at the concrete no-keyword stack "Elixir Phoenix". -/
theorem c3_generate_questions_fallback_witness :
    matchedTechs "Elixir Phoenix" = [] ∧
    generate_questions none "Elixir Phoenix" 4 =
      (fallbackQuestions "Elixir Phoenix" ++ generic_questions).take 4 :=
  ⟨by decide, c3_generate_questions_fallback "Elixir Phoenix" 4 (by decide)⟩

/-- C5 (counterexample): in the greeting stage the stored name is the
trimmed utterance, not the utterance verbatim. -/
theorem c5_greeting_not_verbatim :
    (process_message none initState " Jane Doe ").1.fields = [("name", "Jane Doe")] ∧
    (" Jane Doe " : String) ≠ "Jane Doe" := by
  exact ⟨by decide, by decide⟩

/-- C5 (amended): any utterance delivered in the greeting stage is stored,
TRIMMED, as the name field without any validation, the stage jumps straight
to email (bypassing the name stage's prompt and validator), the name retry
counter is zeroed, and the email prompt is returned. -/
theorem c5_greeting_stores_trimmed (llm : Option String) (st : ChatState) (m : String)
    (h : st.current_stage = "greeting") :
    (process_message llm st m).1.fields = assocSet st.fields "name" (pyStrip m) ∧
    (process_message llm st m).1.current_stage = "email" ∧
    assocGetD (process_message llm st m).1.validation_attempts "name_attempts" 0 = 0 ∧
    (process_message llm st m).2 = (stage_questions.lookup "email").getD "" ∧
    (stage_questions.lookup "email").getD "" = "Thanks! What\x27s your email address?" := by
  refine ⟨?_, ?_, ?_, ?_, by decide⟩ <;>
    simp [process_message, routeMessage, handle_greeting, h, assocGetD_assocSet_self]

/-- Witness for C5 (amended) at the initial state and the utterance
" Jane ". -/
theorem c5_greeting_stores_trimmed_witness :
    (process_message none initState " Jane ").1.fields =
      assocSet initState.fields "name" (pyStrip " Jane ") ∧
    (process_message none initState " Jane ").1.current_stage = "email" ∧
    assocGetD (process_message none initState " Jane ").1.validation_attempts
      "name_attempts" 0 = 0 ∧
    (process_message none initState " Jane ").2 = (stage_questions.lookup "email").getD "" ∧
    (stage_questions.lookup "email").getD "" = "Thanks! What\x27s your email address?" :=
  c5_greeting_stores_trimmed none initState " Jane " rfl

theorem validate_techstack_fail {m : String} (h : (pyStrip m).length < 3) :
    validate "techstack" m = (false, some validationPromptTechstack) := by
  simp [validate, Nat.not_le.mpr h]

theorem pm_techstack_fail (llm : Option String) (st : ChatState) (m : String)
    (hstage : st.current_stage = "techstack") (hlen : (pyStrip m).length < 3) :
    (process_message llm st m).2 = validationPromptTechstack ∧
    (process_message llm st m).1.current_stage = st.current_stage ∧
    (process_message llm st m).1.fields = st.fields ∧
    (process_message llm st m).1.questions = st.questions ∧
    (process_message llm st m).1.answers = st.answers ∧
    (process_message llm st m).1.current_question = st.current_question ∧
    (process_message llm st m).1.final_questions = st.final_questions ∧
    (process_message llm st m).1.validation_attempts = st.validation_attempts := by
  refine ⟨?_, ?_, ?_, ?_, ?_, ?_, ?_, ?_⟩ <;>
    simp [process_message, routeMessage, handle_techstack, hstage,
      validate_techstack_fail hlen]

theorem runTurns_techstack_fail (ps : List (Option String × String)) :
    ∀ st : ChatState, st.current_stage = "techstack" →
      (∀ p ∈ ps, (pyStrip p.2).length < 3) →
      (runTurns st ps).current_stage = "techstack" ∧
      (runTurns st ps).fields = st.fields ∧
      (runTurns st ps).questions = st.questions ∧
      (runTurns st ps).answers = st.answers ∧
      (runTurns st ps).validation_attempts = st.validation_attempts := by
  induction ps with
  | nil => intro st h _; exact ⟨h, rfl, rfl, rfl, rfl⟩
  | cons p rest ih =>
    intro st h hp
    obtain ⟨llm, m⟩ := p
    have hm : (pyStrip m).length < 3 := hp (llm, m) (by simp)
    have step := pm_techstack_fail llm st m h hm
    have ihr := ih (process_message llm st m).1 (step.2.1.trans h)
      (fun q hq => hp q (by simp [hq]))
    simp only [runTurns]
    refine ⟨ihr.1, ?_, ?_, ?_, ?_⟩
    · rw [ihr.2.1, step.2.2.1]
    · rw [ihr.2.2.1, step.2.2.2.1]
    · rw [ihr.2.2.2.1, step.2.2.2.2.1]
    · rw [ihr.2.2.2.2, step.2.2.2.2.2.2.2]

/-- C6: in the techstack stage an utterance whose trimmed length is below 3
returns the canned techstack error and changes nothing (stage, collected
fields, retry counters all unchanged); there is no retry cap, so any number
of consecutive such failures still leaves the session in the techstack stage
with all data untouched. -/
theorem c6_techstack_no_retry_cap (llm : Option String) (st : ChatState) (m : String)
    (hstage : st.current_stage = "techstack") (hlen : (pyStrip m).length < 3) :
    (process_message llm st m).2 = validationPromptTechstack ∧
    (process_message llm st m).1.current_stage = "techstack" ∧
    (process_message llm st m).1.fields = st.fields ∧
    (process_message llm st m).1.validation_attempts = st.validation_attempts ∧
    (process_message llm st m).1.questions = st.questions ∧
    (process_message llm st m).1.answers = st.answers ∧
    (∀ ps : List (Option String × String), (∀ p ∈ ps, (pyStrip p.2).length < 3) →
      (runTurns st ps).current_stage = "techstack" ∧
      (runTurns st ps).fields = st.fields ∧
      (runTurns st ps).validation_attempts = st.validation_attempts) := by
  have step := pm_techstack_fail llm st m hstage hlen
  refine ⟨step.1, step.2.1.trans hstage, step.2.2.1, step.2.2.2.2.2.2.2,
    step.2.2.2.1, step.2.2.2.2.1, ?_⟩
  intro ps hp
  have h := runTurns_techstack_fail ps st hstage hp
  exact ⟨h.1, h.2.1, h.2.2.2.2⟩

/-- Witness for C6: a concrete techstack-stage session rejecting "ab" once
and then a two-turn run of short inputs, leaving everything unchanged. -/
theorem c6_techstack_no_retry_cap_witness :
    (process_message none { initState with current_stage := "techstack" } "ab").2 =
      validationPromptTechstack ∧
    (runTurns { initState with current_stage := "techstack" }
        [(none, "x"), (none, "ab")]).current_stage = "techstack" := by
  have h := c6_techstack_no_retry_cap none
    { initState with current_stage := "techstack" } "ab" rfl (by decide)
  exact ⟨h.1, (h.2.2.2.2.2.2 [(none, "x"), (none, "ab")] (by decide)).1⟩

theorem emailTailMatch_iff {t : List Char} :
    emailTailMatch t = true ↔
      ∃ b c, t = b ++ '.' :: c ∧ b ≠ [] ∧ (∀ ch ∈ b, emailClass2 ch = true) ∧
        2 ≤ c.length ∧ ∀ ch ∈ c, ch.isAlpha = true := by
  unfold emailTailMatch
  rw [List.any_eq_true]
  constructor
  · rintro ⟨⟨b, rest⟩, hmem, hcond⟩
    rw [mem_splits] at hmem
    cases rest with
    | nil => simp at hcond
    | cons r0 rs =>
      simp only [Bool.and_eq_true, beq_iff_eq, decide_eq_true_eq, Bool.not_eq_true',
        List.isEmpty_eq_false, List.all_eq_true] at hcond
      obtain ⟨⟨hb, hall⟩, ⟨hr0, hlen⟩, halpha⟩ := hcond
      exact ⟨b, rs, by rw [hmem, hr0], hb, hall, hlen, halpha⟩
  · rintro ⟨b, c, rfl, hb, hall, hlen, halpha⟩
    refine ⟨(b, '.' :: c), mem_splits.mpr rfl, ?_⟩
    simp only [Bool.and_eq_true, beq_iff_eq, decide_eq_true_eq, Bool.not_eq_true',
      List.isEmpty_eq_false, List.all_eq_true]
    exact ⟨⟨hb, hall⟩, ⟨trivial, hlen⟩, halpha⟩

theorem emailMatch_iff {l : List Char} :
    emailMatch l = true ↔
      ∃ a b c, l = a ++ '@' :: (b ++ '.' :: c) ∧
        a ≠ [] ∧ (∀ ch ∈ a, emailClass1 ch = true) ∧
        b ≠ [] ∧ (∀ ch ∈ b, emailClass2 ch = true) ∧
        2 ≤ c.length ∧ ∀ ch ∈ c, ch.isAlpha = true := by
  unfold emailMatch
  rw [List.any_eq_true]
  constructor
  · rintro ⟨⟨a, rest⟩, hmem, hcond⟩
    rw [mem_splits] at hmem
    cases rest with
    | nil => simp at hcond
    | cons r0 rs =>
      simp only [Bool.and_eq_true, beq_iff_eq, Bool.not_eq_true',
        List.isEmpty_eq_false, List.all_eq_true] at hcond
      obtain ⟨⟨ha, hall⟩, hr0, htail⟩ := hcond
      obtain ⟨b, c, rfl, hb, hball, hlen, halpha⟩ := emailTailMatch_iff.mp htail
      exact ⟨a, b, c, by rw [hmem, hr0], ha, hall, hb, hball, hlen, halpha⟩
  · rintro ⟨a, b, c, rfl, ha, hall, hb, hball, hlen, halpha⟩
    refine ⟨(a, '@' :: (b ++ '.' :: c)), mem_splits.mpr rfl, ?_⟩
    simp only [Bool.and_eq_true, beq_iff_eq, Bool.not_eq_true',
      List.isEmpty_eq_false, List.all_eq_true]
    exact ⟨⟨ha, hall⟩, trivial, emailTailMatch_iff.mpr ⟨b, c, rfl, hb, hball, hlen, halpha⟩⟩

/-- C7: the concrete validator verdicts required by the spec, and the general
characterisations: an email is accepted iff its trimmed text decomposes as
the anchored pattern `[a-zA-Z0-9._%+-]+ @ [a-zA-Z0-9.-]+ . [a-zA-Z]{2,}`
demands, and an experience answer is accepted iff its lowercased trimmed text
is "fresher", "fresh graduate" or "0", or contains a digit. -/
theorem c7_validate_email_experience :
    validate "email" "jane.doe@example.com" = (true, none) ∧
    validate "email" "not-an-email" = (false, some validationPromptEmail) ∧
    validate "experience" "fresher" = (true, none) ∧
    validate "experience" "abc" = (false, some validationPromptExperience) ∧
    (∀ v : String, (validate "email" v).1 = true ↔
      ∃ a b c, (pyStrip v).data = a ++ '@' :: (b ++ '.' :: c) ∧
        a ≠ [] ∧ (∀ ch ∈ a, emailClass1 ch = true) ∧
        b ≠ [] ∧ (∀ ch ∈ b, emailClass2 ch = true) ∧
        2 ≤ c.length ∧ ∀ ch ∈ c, ch.isAlpha = true) ∧
    (∀ v : String, (validate "experience" v).1 = true ↔
      (pyLower (pyStrip v) = "fresher" ∨ pyLower (pyStrip v) = "fresh graduate" ∨
        pyLower (pyStrip v) = "0" ∨ ∃ ch ∈ (pyStrip v).data, ch.isDigit = true)) := by
  refine ⟨by decide, by decide, by decide, by decide, ?_, ?_⟩
  · intro v
    rw [← emailMatch_iff]
    constructor
    · intro h
      by_cases hm : emailMatch (pyStrip v).data = true
      · exact hm
      · simp [validate, hm] at h
    · intro h
      simp [validate, h]
  · intro v
    have hval : validate "experience" v =
        if (pyLower (pyStrip v) = "fresher" ∨ pyLower (pyStrip v) = "fresh graduate" ∨
              pyLower (pyStrip v) = "0") ∨ ∃ x ∈ (pyStrip v).data, x.isDigit = true then
          (true, none)
        else (false, some validationPromptExperience) := by
      simp [validate]
    rw [hval]
    by_cases hx : (pyLower (pyStrip v) = "fresher" ∨ pyLower (pyStrip v) = "fresh graduate" ∨
        pyLower (pyStrip v) = "0") ∨ ∃ x ∈ (pyStrip v).data, x.isDigit = true
    · simp only [hx, if_true]
      constructor
      · intro _; tauto
      · intro _; trivial
    · simp only [hx, if_false]
      constructor
      · intro h; exact absurd h (by simp)
      · intro h; exact absurd (by tauto) hx

/-- The farewell template's text before its single occurrence of "today". -/
def farewellBeforeToday : String := "Thank you so much for your time "

/-- The farewell template's text after its single occurrence of "today"
(it starts with the literal, never-formatted placeholder "\x7bname\x7d"). -/
def farewellAfterToday : String := ", \x7bname\x7d! \u00F0\u0178\u017D\u2030\n\nWe\x27ve successfully wrapped up the initial screening. Here\u00E2\u20AC\u2122s what will happen next:\n\n- Our recruitment team will carefully review your profile and answers.\n- We\x27ll get back to you within 3-5 business days.\n\nBest of luck with your application! We really appreciate you chatting with us.\n\nHave a wonderful day! \u00F0\u0178\u2018\u2039"

set_option maxRecDepth 40000 in
theorem replace_today_decomp (nm : String) :
    pyReplace FAREWELL_PROMPT "today" nm = farewellBeforeToday ++ nm ++ farewellAfterToday := rfl

set_option maxRecDepth 40000 in
/-- C9: `end_conversation` returns the farewell template unchanged when no
non-empty name is stored, and otherwise returns the template with the word
"today" replaced by the stored name; the template splits as
`before ++ "today" ++ after` with "today" occurring in neither part (so every
occurrence is replaced), and the literal placeholder "\x7bname\x7d" sits in the
after-part, hence stays in the returned message unsubstituted in both cases. -/
theorem c9_end_conversation_spec :
    (∀ st : ChatState,
      end_conversation st =
        (if assocGetD st.fields "name" "" = "" then FAREWELL_PROMPT
         else farewellBeforeToday ++ assocGetD st.fields "name" "" ++ farewellAfterToday)) ∧
    FAREWELL_PROMPT = farewellBeforeToday ++ "today" ++ farewellAfterToday ∧
    pyContains farewellBeforeToday "today" = false ∧
    pyContains farewellAfterToday "today" = false ∧
    pyContains farewellAfterToday "\x7bname\x7d" = true ∧
    pyContains FAREWELL_PROMPT "\x7bname\x7d" = true := by
  refine ⟨?_, by decide, by decide, by decide, by decide, by decide⟩
  intro st
  by_cases h : assocGetD st.fields "name" "" = ""
  · simp [end_conversation, h]
  · simp only [end_conversation, h, if_false]
    show pyReplace FAREWELL_PROMPT "today" (assocGetD st.fields "name" "") = _
    exact replace_today_decomp (assocGetD st.fields "name" "")

/-- C8: any input whose lowercased text contains one of the exit keywords as
a substring (anywhere, not word-delimited — e.g. "backend developer" and
"I want to extend my answer" both contain "end") makes the caller short-cut
the turn: `process_message` is never consulted (the chatbot state is returned
untouched, so no validator or stage logic runs), the farewell is appended,
the candidate data is handed to persistence when non-empty, and the session
is frozen (`conversation_ended`). -/
theorem c8_exit_keyword_shortcircuit (llm : Option String) (s : AppState) (input : String)
    (h : ∃ k ∈ exit_keywords, containsSubChars k.data (pyLower input).data = true) :
    (appTurn llm s input).chatbot = s.chatbot ∧
    (appTurn llm s input).conversation_ended = true ∧
    (appTurn llm s input).messages =
      s.messages ++ [("user", input), ("assistant", end_conversation s.chatbot)] ∧
    (appTurn llm s input).saved =
      s.saved ++ (if candidateDataIsEmpty s.chatbot then [] else [snapshot s.chatbot]) ∧
    isExitMessage "backend developer" = true ∧
    isExitMessage "I want to extend my answer" = true := by
  have hexit : isExitMessage input = true := by
    rw [isExitMessage, List.any_eq_true]
    obtain ⟨k, hk, hc⟩ := h
    exact ⟨k, hk, hc⟩
  refine ⟨?_, ?_, ?_, ?_, by decide, by decide⟩ <;>
    by_cases hd : candidateDataIsEmpty s.chatbot <;>
      simp [appTurn, hexit, hd]

/-- Witness for C8: the input "bye" on the freshly started app session. -/
theorem c8_exit_keyword_shortcircuit_witness :
    (appTurn none initAppState "bye").chatbot = initAppState.chatbot ∧
    (appTurn none initAppState "bye").conversation_ended = true ∧
    (appTurn none initAppState "bye").messages =
      initAppState.messages ++
        [("user", "bye"), ("assistant", end_conversation initAppState.chatbot)] ∧
    (appTurn none initAppState "bye").saved =
      initAppState.saved ++
        (if candidateDataIsEmpty initAppState.chatbot then [] else [snapshot initAppState.chatbot]) ∧
    isExitMessage "backend developer" = true ∧
    isExitMessage "I want to extend my answer" = true :=
  c8_exit_keyword_shortcircuit none initAppState "bye"
    ⟨"bye", by decide, by decide⟩

theorem bounded_assocSet {m : List (String × Nat)} {k : String} {v : Nat}
    (h : ∀ p ∈ m, p.2 ≤ 2) (hv : v ≤ 2) : ∀ p ∈ assocSet m k v, p.2 ≤ 2 :=
  fun p hp => (mem_assocSet hp).elim (h p) (fun h2 => h2 ▸ hv)

theorem counters_le_two_step (llm : Option String) (st : ChatState) (m : String)
    (h : ∀ p ∈ st.validation_attempts, p.2 ≤ 2) :
    ∀ p ∈ (process_message llm st m).1.validation_attempts, p.2 ≤ 2 := by
  have hroute : (process_message llm st m).1.validation_attempts =
      (routeMessage llm
        { st with conversation_history := st.conversation_history ++ [("user", m)] }
        m).1.validation_attempts := by
    simp [process_message]
  rw [hroute]
  simp only [routeMessage, handle_greeting, handle_info_collection, handle_techstack,
    handle_technical_questions, handle_completion, move_to_next_stage]
  split_ifs <;>
    first
      | exact h
      | exact bounded_assocSet h (by omega)

theorem counters_le_two_run (ps : List (Option String × String)) :
    ∀ st : ChatState, (∀ p ∈ st.validation_attempts, p.2 ≤ 2) →
      ∀ p ∈ (runTurns st ps).validation_attempts, p.2 ≤ 2 := by
  induction ps with
  | nil => intro st h; exact h
  | cons q rest ih =>
    intro st h
    exact ih (process_message q.1 st q.2).1 (counters_le_two_step q.1 st q.2 h)

/-- C10: after starting a conversation and any sequence of processed
messages, every stored retry-counter value lies in \x7b0, 1, 2\x7d. -/
theorem c10_retry_counters_bounded (ps : List (Option String × String))
    (p : String × Nat)
    (hp : p ∈ (runTurns (start_conversation initState).1 ps).validation_attempts) :
    p.2 = 0 ∨ p.2 = 1 ∨ p.2 = 2 := by
  have h0 : ∀ q ∈ (start_conversation initState).1.validation_attempts, q.2 ≤ 2 := by
    intro q hq
    simp [start_conversation, initState] at hq
  have := counters_le_two_run ps (start_conversation initState).1 h0 p hp
  omega

/-- Witness for C10: a run that leaves one counter at 0 and one at 1. -/
theorem c10_retry_counters_bounded_witness :
    (("email_attempts", 1) : String × Nat) ∈
      (runTurns (start_conversation initState).1
        [(none, "Jane"), (none, "bad-email")]).validation_attempts ∧
    ((("email_attempts", 1) : String × Nat).2 = 0 ∨
      (("email_attempts", 1) : String × Nat).2 = 1 ∨
      (("email_attempts", 1) : String × Nat).2 = 2) :=
  ⟨by decide, c10_retry_counters_bounded [(none, "Jane"), (none, "bad-email")]
    ("email_attempts", 1) (by decide)⟩

theorem route_info (llm : Option String) (s : ChatState) (m : String)
    (h : s.current_stage ∈
      (["name", "email", "phone", "experience", "position", "location"] : List String)) :
    routeMessage llm s m = handle_info_collection s m := by
  have hne : ¬ s.current_stage = "greeting" := by
    intro hg
    rw [hg] at h
    simp at h
  have hc : (["name", "email", "phone", "experience", "position",
      "location"].contains s.current_stage) = true := List.elem_iff.mpr h
  unfold routeMessage
  rw [if_neg hne, if_pos hc]

theorem validate_fail_some {stage m : String}
    (hs : stage ∈
      (["name", "email", "phone", "experience", "position", "location"] : List String))
    (hv : (validate stage m).1 = false) : (validate stage m).2 ≠ none := by
  fin_cases hs <;> simp_all [validate] <;> split_ifs <;> simp_all

theorem pm_info_fail (llm : Option String) (st : ChatState) (m : String)
    (hstage : st.current_stage ∈
      (["name", "email", "phone", "experience", "position", "location"] : List String))
    (hv : (validate st.current_stage m).1 = false)
    (hlt : assocGetD st.validation_attempts (st.current_stage ++ "_attempts") 0 < 2) :
    (process_message llm st m).2 = (validate st.current_stage m).2.getD "" ∧
    (process_message llm st m).1.current_stage = st.current_stage ∧
    (process_message llm st m).1.fields = st.fields ∧
    (process_message llm st m).1.validation_attempts =
      assocSet st.validation_attempts (st.current_stage ++ "_attempts")
        (assocGetD st.validation_attempts (st.current_stage ++ "_attempts") 0 + 1) := by
  have hr := route_info llm
    { st with conversation_history := st.conversation_history ++ [("user", m)] } m
    (by simpa using hstage)
  refine ⟨?_, ?_, ?_, ?_⟩ <;>
    simp [process_message, hr, handle_info_collection, hv, Nat.not_le.mpr hlt]

theorem pm_info_accept (llm : Option String) (st : ChatState) (m : String)
    (hstage : st.current_stage ∈
      (["name", "email", "phone", "experience", "position", "location"] : List String))
    (hcond : (validate st.current_stage m).1 = true ∨
      2 ≤ assocGetD st.validation_attempts (st.current_stage ++ "_attempts") 0) :
    (process_message llm st m).1.current_stage =
      stages.getD (stages.indexOf st.current_stage + 1) "" ∧
    (process_message llm st m).1.fields = assocSet st.fields st.current_stage (pyStrip m) ∧
    (process_message llm st m).1.validation_attempts =
      assocSet st.validation_attempts (st.current_stage ++ "_attempts") 0 ∧
    (process_message llm st m).2 =
      (match stage_questions.lookup (stages.getD (stages.indexOf st.current_stage + 1) "") with
       | some q => q
       | none => "Thank you!") := by
  have hr := route_info llm
    { st with conversation_history := st.conversation_history ++ [("user", m)] } m
    (by simpa using hstage)
  rcases hcond with hv | hge
  · have hv' : ¬ (validate st.current_stage m).1 = false := by simp [hv]
    refine ⟨?_, ?_, ?_, ?_⟩ <;>
      simp [process_message, hr, handle_info_collection, hv', move_to_next_stage]
  · by_cases hv : (validate st.current_stage m).1 = false
    · refine ⟨?_, ?_, ?_, ?_⟩ <;>
        simp [process_message, hr, handle_info_collection, hv, hge, move_to_next_stage]
    · refine ⟨?_, ?_, ?_, ?_⟩ <;>
        simp [process_message, hr, handle_info_collection, hv, move_to_next_stage]

/-- C1: in any of the six info-collection stages with a zero retry counter,
two consecutive invalid inputs each return the stage's validation error and
leave stage and fields unchanged while the counter becomes 1 and then 2; a
third input — whatever it is — is stored trimmed into the stage's field, the
counter is reset to 0, the stage advances by one, and the next stage's prompt
(which exists for all six successors) is returned. -/
theorem c1_retry_then_force_accept
    (llm1 llm2 llm3 : Option String) (st : ChatState) (m1 m2 m3 : String)
    (hstage : st.current_stage ∈
      (["name", "email", "phone", "experience", "position", "location"] : List String))
    (h0 : assocGetD st.validation_attempts (st.current_stage ++ "_attempts") 0 = 0)
    (h1 : (validate st.current_stage m1).1 = false)
    (h2 : (validate st.current_stage m2).1 = false) :
    (process_message llm1 st m1).2 = (validate st.current_stage m1).2.getD "" ∧
    (validate st.current_stage m1).2 ≠ none ∧
    (process_message llm1 st m1).1.current_stage = st.current_stage ∧
    (process_message llm1 st m1).1.fields = st.fields ∧
    assocGetD (process_message llm1 st m1).1.validation_attempts
      (st.current_stage ++ "_attempts") 0 = 1 ∧
    (process_message llm2 (process_message llm1 st m1).1 m2).2 =
      (validate st.current_stage m2).2.getD "" ∧
    (process_message llm2 (process_message llm1 st m1).1 m2).1.current_stage =
      st.current_stage ∧
    (process_message llm2 (process_message llm1 st m1).1 m2).1.fields = st.fields ∧
    assocGetD (process_message llm2 (process_message llm1 st m1).1 m2).1.validation_attempts
      (st.current_stage ++ "_attempts") 0 = 2 ∧
    (process_message llm3
        (process_message llm2 (process_message llm1 st m1).1 m2).1 m3).1.fields =
      assocSet st.fields st.current_stage (pyStrip m3) ∧
    assocGetD (process_message llm3
        (process_message llm2 (process_message llm1 st m1).1 m2).1 m3).1.validation_attempts
      (st.current_stage ++ "_attempts") 0 = 0 ∧
    (process_message llm3
        (process_message llm2 (process_message llm1 st m1).1 m2).1 m3).1.current_stage =
      stages.getD (stages.indexOf st.current_stage + 1) "" ∧
    (stage_questions.lookup (stages.getD (stages.indexOf st.current_stage + 1) "")).isSome
      = true ∧
    (process_message llm3
        (process_message llm2 (process_message llm1 st m1).1 m2).1 m3).2 =
      (stage_questions.lookup
        (stages.getD (stages.indexOf st.current_stage + 1) "")).getD "Thank you!" := by
  have A := pm_info_fail llm1 st m1 hstage h1 (by omega)
  have hs1 : (process_message llm1 st m1).1.current_stage = st.current_stage := A.2.1
  have c1 : assocGetD (process_message llm1 st m1).1.validation_attempts
      (st.current_stage ++ "_attempts") 0 = 1 := by
    rw [A.2.2.2, h0, assocGetD_assocSet_self]
  have B := pm_info_fail llm2 (process_message llm1 st m1).1 m2
    (by rw [hs1]; exact hstage) (by rw [hs1]; exact h2)
    (by rw [hs1]; omega)
  have hs2 : (process_message llm2 (process_message llm1 st m1).1 m2).1.current_stage =
      st.current_stage := by rw [B.2.1, hs1]
  have c2 : assocGetD
      (process_message llm2 (process_message llm1 st m1).1 m2).1.validation_attempts
      (st.current_stage ++ "_attempts") 0 = 2 := by
    rw [B.2.2.2, hs1, c1, assocGetD_assocSet_self]
  have C := pm_info_accept llm3 (process_message llm2 (process_message llm1 st m1).1 m2).1
    m3 (by rw [hs2]; exact hstage) (by rw [hs2]; omega)
  have hsome : (stage_questions.lookup
      (stages.getD (stages.indexOf st.current_stage + 1) "")).isSome = true := by
    have hmem := hstage
    simp only [List.mem_cons, List.not_mem_nil, or_false] at hmem
    rcases hmem with h | h | h | h | h | h <;> rw [h] <;> decide
  refine ⟨A.1, validate_fail_some hstage h1, hs1, A.2.2.1, c1, ?_, hs2, ?_, c2,
    ?_, ?_, ?_, hsome, ?_⟩
  · rw [B.1, hs1]
  · rw [B.2.2.1, A.2.2.1]
  · rw [C.2.1, hs2, B.2.2.1, A.2.2.1]
  · rw [C.2.2.1, hs2, assocGetD_assocSet_self]
  · rw [C.1, hs2]
  · rw [C.2.2.2, hs2]
    rcases hlook : stage_questions.lookup
        (stages.getD (stages.indexOf st.current_stage + 1) "") with _ | q
    · rw [hlook] at hsome; simp at hsome
    · simp

/-- Witness for C1: the email stage of a fresh session reached via the
greeting, fed two invalid emails and then a third arbitrary input. -/
theorem c1_retry_then_force_accept_witness :
    (process_message none { initState with current_stage := "email" } "nope").2 =
      (validate "email" "nope").2.getD "" ∧
    assocGetD (process_message none
        (process_message none
          (process_message none { initState with current_stage := "email" } "nope").1
          "still wrong").1 " third answer ").1.validation_attempts
      ("email" ++ "_attempts") 0 = 0 ∧
    (process_message none
        (process_message none
          (process_message none { initState with current_stage := "email" } "nope").1
          "still wrong").1 " third answer ").1.current_stage =
      stages.getD (stages.indexOf ("email" : String) + 1) "" := by
  have h := c1_retry_then_force_accept none none none
    { initState with current_stage := "email" } "nope" "still wrong" " third answer "
    (by decide) (by decide) (by decide) (by decide)
  exact ⟨h.1, h.2.2.2.2.2.2.2.2.2.2.1, h.2.2.2.2.2.2.2.2.2.2.2.1⟩

/-- C4 (counterexample): at count 8 with no matched keyword and a failing
generation collaborator the result has length 7, not 8. -/
theorem c4_length_counterexample :
    (generate_questions none "Elixir Phoenix" 8).length = 7 ∧
    ¬ (generate_questions none "Elixir Phoenix" 8).length = 8 := by
  exact ⟨by decide, by decide⟩

theorem kbLookup_len : ∀ t ∈ knowledge_base.map Prod.fst, (kbLookup t).length = 4 := by decide

theorem matched_sub {ts : String} : ∀ t ∈ matchedTechs ts, t ∈ knowledge_base.map Prod.fst :=
  fun _ ht => List.mem_of_mem_filter ht

theorem firstPass_len (per : Nat) : ∀ l : List String, (∀ t ∈ l, (kbLookup t).length = 4) →
    (l.flatMap fun t => (kbLookup t).take per).length = l.length * min per 4 := by
  intro l
  induction l with
  | nil => intro _; simp
  | cons t rest ih =>
    intro h
    have ht : (kbLookup t).length = 4 := h t (by simp)
    have hr := ih (fun x hx => h x (by simp [hx]))
    simp only [List.flatMap_cons, List.length_append, List.length_take, ht, hr,
      List.length_cons]
    ring_nf

theorem secondPass_len (per num : Nat) :
    ∀ (techs : List String) (qs : List String),
      (∀ t ∈ techs, (kbLookup t).length = 4) → qs.length ≤ num →
      (secondPass qs techs per num).length =
        min num (qs.length + techs.length * (4 - per)) := by
  intro techs
  induction techs with
  | nil =>
    intro qs _ hle
    simp only [secondPass, List.length_nil, Nat.zero_mul, Nat.add_zero]
    omega
  | cons t rest ih =>
    intro qs h hle
    have ht : (kbLookup t).length = 4 := h t (by simp)
    by_cases hq : num ≤ qs.length
    · simp only [secondPass, hq, if_true, List.length_cons]
      have : qs.length = num := by omega
      rw [this]
      omega
    · simp only [secondPass, hq, if_false]
      have hlen2 : (qs ++ ((kbLookup t).drop per).take (num - qs.length)).length =
          qs.length + min (num - qs.length) (4 - per) := by
        simp [List.length_append, List.length_take, List.length_drop, ht]
      rw [ih _ (fun x hx => h x (by simp [hx])) (by omega), hlen2]
      simp only [List.length_cons]
      have h4 : min (num - qs.length) (4 - per) ≤ num - qs.length := Nat.min_le_left _ _
      rcases Nat.le_total (num - qs.length) (4 - per) with hc | hc
      · rw [Nat.min_eq_left hc]
        have : (rest.length + 1) * (4 - per) = (4 - per) + rest.length * (4 - per) := by ring
        omega
      · rw [Nat.min_eq_right hc]
        have : (rest.length + 1) * (4 - per) = (4 - per) + rest.length * (4 - per) := by ring
        omega

/-- C4 (amended): for every tech-stack text, every collaborator outcome, and
every positive count of at most 4 (the orchestrator only ever asks for 4),
`generate_questions` returns a list of length exactly `count`; the claim's
unrestricted form fails, because when no keyword matches and the generation
collaborator produces too little, the 3 fallback plus 4 generic questions
cannot reach counts above 7. -/
theorem c4_generate_questions_length (llm : Option String) (ts : String) (n : Nat)
    (hn1 : 1 ≤ n) (hn4 : n ≤ 4) : (generate_questions llm ts n).length = n := by
  have hgen4 : generic_questions.length = 4 := rfl
  unfold generate_questions
  by_cases hm : (matchedTechs ts).isEmpty
  · simp only [hm, Bool.not_true, Bool.false_eq_true, if_false, List.length_nil, hn1,
      Nat.sub_zero, List.nil_append]
    rw [if_neg (by omega : ¬ n ≤ 0)]
    have hn : 0 < n := hn1
    simp only [hn, if_true]
    by_cases hg : (generate_custom_questions llm ts).length < n
    · rw [if_pos hg]
      simp only [List.length_take, List.length_append]
      omega
    · rw [if_neg hg]
      simp only [List.length_take]
      omega
  · -- matched techs nonempty
    have hm' : (!(matchedTechs ts).isEmpty) = true := by simp [hm]
    have hml : ∀ t ∈ matchedTechs ts, (kbLookup t).length = 4 :=
      fun t ht => kbLookup_len t (matched_sub t ht)
    have hmlen : 1 ≤ (matchedTechs ts).length :=
      List.length_pos.mpr (by simpa using hm)
    simp only [hm', if_true]
    set P := max 1 (n / (matchedTechs ts).length) with hP
    have hper4 : P ≤ 4 := by
      have := Nat.div_le_self n (matchedTechs ts).length
      omega
    set FP := (matchedTechs ts).flatMap fun tech => (kbLookup tech).take P with hFP
    have hfp : FP.length = (matchedTechs ts).length * P := by
      rw [hFP, firstPass_len P (matchedTechs ts) hml, Nat.min_eq_left hper4]
    by_cases hlt : FP.length < n
    · rw [if_pos hlt]
      have hsp : (secondPass FP (matchedTechs ts) P n).length =
          min n (FP.length + (matchedTechs ts).length * (4 - P)) :=
        secondPass_len P n (matchedTechs ts) FP hml (by omega)
      have hsp' : (secondPass FP (matchedTechs ts) P n).length = n := by
        rw [hsp, hfp]
        have htot : (matchedTechs ts).length * P +
            (matchedTechs ts).length * (4 - P) = (matchedTechs ts).length * 4 := by
          rw [← Nat.mul_add]
          congr 1
          omega
        rw [htot]
        have h4m : n ≤ (matchedTechs ts).length * 4 := by
          calc n ≤ 4 := hn4
          _ ≤ (matchedTechs ts).length * 4 := by
            have := Nat.mul_le_mul_right 4 hmlen
            omega
        omega
      rw [if_pos (by rw [hsp'])]
      simp only [List.length_take]
      omega
    · rw [if_neg hlt]
      rw [if_pos (by omega : n ≤ FP.length)]
      simp only [List.length_take]
      omega

/-- Witness for C4 (amended) at the stack "Python" and count 2. -/
theorem c4_generate_questions_length_witness :
    (generate_questions none "Python" 2).length = 2 :=
  c4_generate_questions_length none "Python" 2 (by decide) (by decide)

/-- Witness for C2 at a concrete collaborator outcome. -/
theorem c2_generate_questions_python_react_docker_witness :
    matchedTechs "Python, React, Docker" = ["python", "react", "docker"] ∧
    max 1 (4 / (matchedTechs "Python, React, Docker").length) = 1 ∧
    generate_questions none "Python, React, Docker" 4 =
      [(kbLookup "python").getD 0 "", (kbLookup "react").getD 0 "",
       (kbLookup "docker").getD 0 "", (kbLookup "python").getD 1 ""] ∧
    (generate_questions none "Python, React, Docker" 4).length = 4 :=
  c2_generate_questions_python_react_docker none

/-- Witness for C7: the first concrete verdict, by the theorem itself. -/
theorem c7_validate_email_experience_witness :
    validate "email" "jane.doe@example.com" = (true, none) :=
  c7_validate_email_experience.1

/-- Witness for C9 on a session whose stored name is "Jane". -/
theorem c9_end_conversation_spec_witness :
    end_conversation { initState with fields := [("name", "Jane")] } =
      (if assocGetD ([("name", "Jane")] : List (String × String)) "name" "" = "" then
        FAREWELL_PROMPT
       else farewellBeforeToday ++
        assocGetD ([("name", "Jane")] : List (String × String)) "name" "" ++
        farewellAfterToday) :=
  c9_end_conversation_spec.1 { initState with fields := [("name", "Jane")] }


end Talent
